import Mathlib

/-!
Verification of the workshop repository "Agent and Tool Calling".

The repository is a Colab notebook wiring a Gemini tool-calling loop to the
GitHub "get a user" REST endpoint, plus a README.  We shallowly embed:

* the tool function `get_github_user_info` (notebook cell `7B9sOPzOWMhx`),
  with the HTTP layer modelled as an oracle mapping URLs to outcomes, the
  Python `try/except` made explicit with an `Except` value, and the local
  variable `response` tracked as an `Option` so that unbound-variable reads
  are observable;
* the credential-loader cell (`ywaShcFuVzdk`) together with the secret name
  the README instructs the user to configure;
* the dispatch cell (`sr8hY63OYPNo`).  Its `else` branch is implemented in
  the notebook; the tool-invocation and second model call inside the
  function-call branch are placeholder comments, so that part is modelled
  from the spec's dispatch-loop state machine.
-/

set_option autoImplicit false

namespace Workshop

/-- JSON values, as returned by `response.json()` and built by the error
branches of the tool function. -/
inductive Json where
  | null : Json
  | bool : Bool → Json
  | num : Int → Json
  | str : String → Json
  | arr : List Json → Json
  | obj : List (String × Json) → Json

/-- Whether a JSON object has a field named `k` (`k in d` on a Python dict). -/
def Json.hasKey : Json → String → Bool
  | .obj kvs, k => kvs.any (fun kv => kv.1 == k)
  | _, _ => false

/-- An HTTP response as seen through `requests`: the status code and the
result of attempting to parse the body as JSON (`none` models a body that
`response.json()` fails to decode). -/
structure Response where
  status_code : Nat
  jsonBody : Option Json

/-- Outcome of `requests.get(url)`: either a response object, or an
exception raised before any response exists (connection error, timeout…). -/
inductive GetOutcome where
  | ok : Response → GetOutcome
  | raise : String → GetOutcome

/-- Exceptions that can escape the `try` block of `get_github_user_info`.
`requests.get` itself never raises `HTTPError`; that exception comes only
from `raise_for_status`, matching the `requests` library. -/
inductive Exn where
  | httpError : String → Exn
  | otherExn : String → Exn

/-- The endpoint template: `f"https://api.github.com/users/{username}"`. -/
def api_url (username : String) : String :=
  "https://api.github.com/users/" ++ username

/-- Message text carried by an `HTTPError` from `raise_for_status`. -/
def httpErrorText (status : Nat) (url : String) : String :=
  toString status ++ " Error for url: " ++ url

/-- `response.raise_for_status()`: raises `HTTPError` exactly when the
status code is in 400–599, per the `requests` library. -/
def raise_for_status (r : Response) (url : String) : Except Exn Unit :=
  if 400 ≤ r.status_code ∧ r.status_code < 600 then
    .error (.httpError (httpErrorText r.status_code url))
  else .ok ()

/-- `response.json()`: yields the parsed body, or raises a decode error
(caught by the generic `except Exception` clause). -/
def response_json (r : Response) : Except Exn Json :=
  match r.jsonBody with
  | some j => .ok j
  | none => .error (.otherExn "Expecting value: line 1 column 1 (char 0)")

/-- State of the `try` block of `get_github_user_info` when it exits:
the list of URLs passed to `requests.get`, the binding of the local
variable `response` (`none` = never assigned), and the block's result. -/
structure TryOutcome where
  requestedUrls : List String
  responseVar : Option Response
  result : Except Exn Json

/-- The `try` block of `get_github_user_info`:
`response = requests.get(api_url); response.raise_for_status();
return response.json()`, with the HTTP layer given by `oracle`. -/
def get_try_block (oracle : String → GetOutcome) (url : String) : TryOutcome :=
  match oracle url with
  | .raise msg => ⟨[url], none, .error (.otherExn msg)⟩
  | .ok response =>
    match raise_for_status response url with
    | .error e => ⟨[url], some response, .error e⟩
    | .ok _ =>
      match response_json response with
      | .error e => ⟨[url], some response, .error e⟩
      | .ok j => ⟨[url], some response, .ok j⟩

/-- Result of a Python call: a returned value, or a `NameError` from
reading a local variable that was never bound. -/
inductive PyResult where
  | ret : Json → PyResult
  | nameError : String → PyResult

/-- `true` iff the call returned normally (no exception, no `NameError`). -/
def PyResult.isRet : PyResult → Bool
  | .ret _ => true
  | .nameError _ => false

/-- A whole call to the tool function: the URLs it requested and what it
returned. -/
structure CallTrace where
  requestedUrls : List String
  result : PyResult

/-- The `except` clauses of `get_github_user_info`: a normal return passes
the parsed JSON through; `except requests.exceptions.HTTPError` returns
`{"error": f"HTTP error occurred: {http_err}", "status_code": response.status_code}`
(reading `response.status_code` is a `NameError` if `response` was never
bound); `except Exception` returns `{"error": f"An unexpected error occurred: {e}"}`. -/
def handle_exceptions (t : TryOutcome) : CallTrace :=
  match t.result with
  | .ok j => ⟨t.requestedUrls, .ret j⟩
  | .error (.httpError msg) =>
    match t.responseVar with
    | some response =>
      ⟨t.requestedUrls,
        .ret (.obj [("error", .str ("HTTP error occurred: " ++ msg)),
                    ("status_code", .num (response.status_code : Int))])⟩
    | none => ⟨t.requestedUrls, .nameError "response"⟩
  | .error (.otherExn msg) =>
    ⟨t.requestedUrls, .ret (.obj [("error", .str ("An unexpected error occurred: " ++ msg))])⟩

/-- `get_github_user_info(username)` from the notebook: builds the
templated URL, runs the `try` block, and handles its exceptions. -/
def get_github_user_info (oracle : String → GetOutcome) (username : String) : CallTrace :=
  handle_exceptions (get_try_block oracle (api_url username))

/-- Whether the value returned by a call is a JSON object with field `k`. -/
def resultHasKey (t : CallTrace) (k : String) : Bool :=
  match t.result with
  | .ret j => j.hasKey k
  | .nameError _ => false

/-- Running the tool twice with the same username against the same
unchanged HTTP oracle (idempotence / statelessness checks). -/
def callTwice (oracle : String → GetOutcome) (username : String) : CallTrace × CallTrace :=
  (get_github_user_info oracle username, get_github_user_info oracle username)

/-! ### Credential loader (notebook cell `ywaShcFuVzdk` and the README) -/

/-- Outcome of running the credential-loader cell: the binding of
`api_key` after the cell (`none` = never assigned) and the lines printed. -/
structure LoaderOutcome where
  api_key : Option String
  printed : List String

/-- The credential-loader cell: `api_key = userdata.get(keyName)` inside a
`try`; `except userdata.SecretNotFoundError` (modelled as the store
returning `none`) prints two fixed messages and the cell finishes without
binding `api_key`. -/
def credential_loader (store : String → Option String) (keyName : String) : LoaderOutcome :=
  match store keyName with
  | some v => ⟨some v, []⟩
  | none =>
    ⟨none,
      ["ERROR: GOOGLE_API_KEY not found.",
       "Please go to the \"Key\" icon on the left sidebar of Colab, add a new secret named GOOGLE_API_KEY, and paste your key in the value field.\n"]⟩

/-- The secret name the README (step "Set Up Your API Key in Colab")
instructs the user to create. -/
def instructedSecretName : String := "GEMINI_API_KEY"

/-- Does the character list `s` start with the character list `pat`? -/
def charsStartWith : List Char → List Char → Bool
  | [], _ => true
  | _ :: _, [] => false
  | c :: cs, d :: ds => c == d && charsStartWith cs ds

/-- Does `pat` occur as a contiguous run inside `s`? -/
def charsContain (pat : List Char) : List Char → Bool
  | [] => charsStartWith pat []
  | c :: rest => charsStartWith pat (c :: rest) || charsContain pat rest

/-- Substring test on strings: does `s` mention `pat`? -/
def strContains (s pat : String) : Bool :=
  charsContain pat.data s.data

/-! ### Dispatch loop (notebook cell `sr8hY63OYPNo`) -/

/-- A structured function-call request from the model: a tool name and an
argument mapping. -/
structure FunctionCall where
  name : String
  args : List (String × Json)

/-- A model response holds either a function-call request in its first
part, or final free text. -/
inductive ModelResponse where
  | functionCall : FunctionCall → ModelResponse
  | text : String → ModelResponse

/-- What the second model-session call carries: the original prompt, the
function-call request, and the tool's result. -/
structure SecondCallPayload where
  prompt : String
  call : FunctionCall
  toolResult : Json

/-- Terminal outcome of the dispatch loop: a natural-language answer shown
to the user, or a surfaced unhandled-capability error naming the tool. -/
inductive Terminal where
  | answer : String → Terminal
  | unhandledTool : String → Terminal

/-- Full trace of one run of the dispatch loop: every tool invocation
performed (tool name with the exact argument mapping passed), every second
model-session call issued, and the terminal outcome. -/
structure DispatchTrace where
  toolInvocations : List (String × List (String × Json))
  secondCalls : List SecondCallPayload
  terminal : Terminal

/-- The one tool the dispatch loop knows how to invoke. -/
def knownToolName : String := "get_github_user_info"

/-- Modelled from the spec: the notebook's dispatch cell only prints the
requested function name and arguments — the `# call the function` and
`# Make another call ...` steps of the function-call branch are placeholder
comments.  Following the spec's dispatch-loop state machine: a response
with a function-call request naming the known tool invokes that tool with
exactly the supplied argument mapping, then issues exactly one second
model call carrying the original prompt, the request and the tool result,
whose text is the terminal answer; an unrecognized tool name is surfaced
as an unhandled-capability error; the `else` branch (present in the
notebook) performs no tool invocation and yields the model's text
unchanged. -/
def dispatch (tool : List (String × Json) → Json)
    (model2 : SecondCallPayload → String)
    (prompt : String) (resp : ModelResponse) : DispatchTrace :=
  match resp with
  | .text t => { toolInvocations := [], secondCalls := [], terminal := .answer t }
  | .functionCall fc =>
    if fc.name = knownToolName then
      { toolInvocations := [(fc.name, fc.args)],
        secondCalls := [⟨prompt, fc, tool fc.args⟩],
        terminal := .answer (model2 ⟨prompt, fc, tool fc.args⟩) }
    else
      { toolInvocations := [], secondCalls := [], terminal := .unhandledTool fc.name }

/-! ### Concrete fixtures for witnesses and counterexamples -/

/-- A GitHub-style success body for user `google` (no `error` field). -/
def googleBody : Json :=
  .obj [("login", .str "google"), ("name", .str "Google"), ("bio", .null),
        ("public_repos", .num 2770), ("followers", .num 57000)]

/-- An HTTP oracle whose every response is `200` with `googleBody`. -/
def oracle200 : String → GetOutcome := fun _ => .ok ⟨200, some googleBody⟩

/-- A GitHub-style `404` response body. -/
def notFoundBody : Json := .obj [("message", .str "Not Found")]

/-- An HTTP oracle whose every response is `404 Not Found`. -/
def oracle404 : String → GetOutcome := fun _ => .ok ⟨404, some notFoundBody⟩

/-- An HTTP oracle whose every response is `304 Not Modified` with an
empty (undecodable) body. -/
def oracle304 : String → GetOutcome := fun _ => .ok ⟨304, none⟩

/-- An HTTP oracle on which every request raises a connection error. -/
def oracleDown : String → GetOutcome := fun _ => .raise "Connection refused"

/-- A secret store holding no secrets at all. -/
def emptyStore : String → Option String := fun _ => none

/- Helper lemmas shared by several claims. -/

theorem get_try_block_urls (oracle : String → GetOutcome) (url : String) :
    (get_try_block oracle url).requestedUrls = [url] := by
  unfold get_try_block
  split
  · rfl
  · split
    · rfl
    · split <;> rfl

theorem handle_exceptions_urls (t : TryOutcome) :
    (handle_exceptions t).requestedUrls = t.requestedUrls := by
  unfold handle_exceptions
  split
  · rfl
  · split <;> rfl
  · rfl

theorem get_github_user_info_urls (oracle : String → GetOutcome) (username : String) :
    (get_github_user_info oracle username).requestedUrls = [api_url username] := by
  unfold get_github_user_info
  rw [handle_exceptions_urls, get_try_block_urls]

theorem resultHasKey_ret (t : CallTrace) (j : Json) (k : String)
    (h : t.result = .ret j) : resultHasKey t k = j.hasKey k := by
  unfold resultHasKey
  rw [h]

theorem get_try_block_raise (oracle : String → GetOutcome) (url : String) (msg : String)
    (h : oracle url = .raise msg) :
    get_try_block oracle url = ⟨[url], none, .error (.otherExn msg)⟩ := by
  unfold get_try_block
  simp only [h]

theorem get_try_block_http (oracle : String → GetOutcome) (url : String) (r : Response)
    (h : oracle url = .ok r) (h4 : 400 ≤ r.status_code) (h6 : r.status_code < 600) :
    get_try_block oracle url =
      ⟨[url], some r, .error (.httpError (httpErrorText r.status_code url))⟩ := by
  have hr : raise_for_status r url = .error (.httpError (httpErrorText r.status_code url)) := by
    unfold raise_for_status
    rw [if_pos ⟨h4, h6⟩]
  unfold get_try_block
  simp only [h, hr]

theorem get_try_block_success (oracle : String → GetOutcome) (url : String) (r : Response)
    (j : Json) (h : oracle url = .ok r)
    (hstat : ¬(400 ≤ r.status_code ∧ r.status_code < 600)) (hbody : r.jsonBody = some j) :
    get_try_block oracle url = ⟨[url], some r, .ok j⟩ := by
  have hr : raise_for_status r url = .ok () := by
    unfold raise_for_status
    rw [if_neg hstat]
  have hj : response_json r = .ok j := by
    unfold response_json
    rw [hbody]
  unfold get_try_block
  simp only [h, hr, hj]

theorem get_try_block_badjson (oracle : String → GetOutcome) (url : String) (r : Response)
    (h : oracle url = .ok r)
    (hstat : ¬(400 ≤ r.status_code ∧ r.status_code < 600)) (hbody : r.jsonBody = none) :
    get_try_block oracle url =
      ⟨[url], some r, .error (.otherExn "Expecting value: line 1 column 1 (char 0)")⟩ := by
  have hr : raise_for_status r url = .ok () := by
    unfold raise_for_status
    rw [if_neg hstat]
  have hj : response_json r = .error (.otherExn "Expecting value: line 1 column 1 (char 0)") := by
    unfold response_json
    rw [hbody]
  unfold get_try_block
  simp only [h, hr, hj]

theorem httpError_has_response (oracle : String → GetOutcome) (url : String) (msg : String)
    (h : (get_try_block oracle url).result = Except.error (Exn.httpError msg)) :
    ∃ r, oracle url = .ok r ∧ (get_try_block oracle url).responseVar = some r := by
  cases ho : oracle url with
  | raise m =>
    rw [get_try_block_raise oracle url m ho] at h
    exact absurd h (by simp)
  | ok response =>
    refine ⟨response, rfl, ?_⟩
    unfold get_try_block
    simp only [ho]
    split
    · rfl
    · split <;> rfl

/-!
### C1 — HTTP-error statuses and the `status_code` key

The claim quantifies over every non-2xx status, but `raise_for_status`
raises `HTTPError` only for statuses 400–599.  A `304 Not Modified`
response is non-2xx yet takes the generic-exception path (its empty body
fails JSON decoding), producing a message-only error object with no
`status_code` key — a counterexample.  The amended claim restricts the
error-object-with-status property to 4xx/5xx statuses.
-/

/-- C1 (counterexample): with every request answered `304 Not Modified`
(non-2xx) with an empty body, the returned payload has no `status_code`
key — it is the message-only generic error object, refuting the claim as
stated for non-2xx statuses outside 400–599. -/
theorem non2xx_not_http_error_at_304 :
    (304 < 200 ∨ 300 ≤ 304) ∧
    oracle304 (api_url "ghost") = GetOutcome.ok ⟨304, none⟩ ∧
    (get_github_user_info oracle304 "ghost").result =
      PyResult.ret (Json.obj
        [("error", Json.str "An unexpected error occurred: Expecting value: line 1 column 1 (char 0)")]) ∧
    resultHasKey (get_github_user_info oracle304 "ghost") "status_code" = false := by
  refine ⟨by decide, rfl, rfl, rfl⟩

/-- C1 (amended): whenever the HTTP GET completes with a status in
400–599, `get_github_user_info` returns the structured error dictionary
whose `error` field holds the `HTTPError` message and whose `status_code`
field equals the response's status, and the call returns normally (no
exception escapes). -/
theorem http_error_payload_4xx5xx (oracle : String → GetOutcome) (username : String)
    (r : Response) (hok : oracle (api_url username) = GetOutcome.ok r)
    (h4 : 400 ≤ r.status_code) (h6 : r.status_code < 600) :
    (get_github_user_info oracle username).result =
      PyResult.ret (Json.obj
        [("error", Json.str ("HTTP error occurred: " ++ httpErrorText r.status_code (api_url username))),
         ("status_code", Json.num (r.status_code : Int))]) := by
  unfold get_github_user_info
  rw [get_try_block_http oracle (api_url username) r hok h4 h6]
  rfl

/-- C1 (witness): the amended theorem applied to a concrete `404` oracle. -/
theorem http_error_payload_4xx5xx_witness :
    oracle404 (api_url "no-such-user-xyz") = GetOutcome.ok ⟨404, some notFoundBody⟩ ∧
    400 ≤ 404 ∧ (404 : Nat) < 600 ∧
    (get_github_user_info oracle404 "no-such-user-xyz").result =
      PyResult.ret (Json.obj
        [("error", Json.str ("HTTP error occurred: " ++ httpErrorText 404 (api_url "no-such-user-xyz"))),
         ("status_code", Json.num 404)]) :=
  ⟨rfl, by decide, by decide,
    http_error_payload_4xx5xx oracle404 "no-such-user-xyz" ⟨404, some notFoundBody⟩ rfl
      (by decide) (by decide)⟩

/-!
### C2 — success path: one GET to the templated URL, body returned verbatim
-/

/-- C2: for a non-empty username whose GET completes with a 2xx status and
a decodable body `j` (a GitHub success body, hence no `error` field), the
call issues exactly one HTTP GET, to
`"https://api.github.com/users/" ++ username`, returns `j` verbatim, and
the returned payload has no `error` key. -/
theorem success_payload_verbatim (oracle : String → GetOutcome) (username : String)
    (r : Response) (j : Json)
    (hne : username ≠ "")
    (hok : oracle (api_url username) = GetOutcome.ok r)
    (h2 : 200 ≤ r.status_code) (h3 : r.status_code < 300)
    (hbody : r.jsonBody = some j)
    (herr : j.hasKey "error" = false) :
    (get_github_user_info oracle username).requestedUrls =
      ["https://api.github.com/users/" ++ username] ∧
    (get_github_user_info oracle username).result = PyResult.ret j ∧
    resultHasKey (get_github_user_info oracle username) "error" = false := by
  have hstat : ¬(400 ≤ r.status_code ∧ r.status_code < 600) := by omega
  have hres : (get_github_user_info oracle username).result = PyResult.ret j := by
    unfold get_github_user_info
    rw [get_try_block_success oracle (api_url username) r j hok hstat hbody]
    rfl
  refine ⟨get_github_user_info_urls oracle username, hres, ?_⟩
  rw [resultHasKey_ret _ j _ hres, herr]

/-- C2 (witness): the success theorem applied to a concrete 200 oracle for
username `google`. -/
theorem success_payload_verbatim_witness :
    ("google" : String) ≠ "" ∧
    oracle200 (api_url "google") = GetOutcome.ok ⟨200, some googleBody⟩ ∧
    200 ≤ 200 ∧ (200 : Nat) < 300 ∧
    googleBody.hasKey "error" = false ∧
    ((get_github_user_info oracle200 "google").requestedUrls =
        ["https://api.github.com/users/" ++ "google"] ∧
     (get_github_user_info oracle200 "google").result = PyResult.ret googleBody ∧
     resultHasKey (get_github_user_info oracle200 "google") "error" = false) :=
  ⟨by decide, rfl, by decide, by decide, by decide,
    success_payload_verbatim oracle200 "google" ⟨200, some googleBody⟩ googleBody
      (by decide) rfl (by decide) (by decide) rfl (by decide)⟩

/-!
### C6 — non-HTTP failures: message-only error object
-/

/-- C6: if the call fails other than by an HTTP error status — the GET
raises (network error), or the response's status is outside 400–599 but
its body fails JSON decoding (malformed response) — the function returns
a structured error object containing only the message (in particular no
`status_code` key), and the call returns normally. -/
theorem other_failure_message_only (oracle : String → GetOutcome) (username : String)
    (msg : String) (r : Response)
    (h : oracle (api_url username) = GetOutcome.raise msg ∨
         (oracle (api_url username) = GetOutcome.ok r ∧
          ¬(400 ≤ r.status_code ∧ r.status_code < 600) ∧ r.jsonBody = none)) :
    (∃ m, (get_github_user_info oracle username).result =
       PyResult.ret (Json.obj [("error", Json.str ("An unexpected error occurred: " ++ m))])) ∧
    resultHasKey (get_github_user_info oracle username) "status_code" = false := by
  have hres : ∃ m, (get_github_user_info oracle username).result =
      PyResult.ret (Json.obj [("error", Json.str ("An unexpected error occurred: " ++ m))]) := by
    rcases h with hraise | ⟨hok, hstat, hbody⟩
    · refine ⟨msg, ?_⟩
      unfold get_github_user_info
      rw [get_try_block_raise oracle (api_url username) msg hraise]
      rfl
    · refine ⟨"Expecting value: line 1 column 1 (char 0)", ?_⟩
      unfold get_github_user_info
      rw [get_try_block_badjson oracle (api_url username) r hok hstat hbody]
      rfl
  obtain ⟨m, hm⟩ := hres
  refine ⟨⟨m, hm⟩, ?_⟩
  rw [resultHasKey_ret _ _ _ hm]
  rfl

/-- C6 (witness): the message-only theorem applied to an oracle on which
every request raises a connection error. -/
theorem other_failure_message_only_witness :
    oracleDown (api_url "google") = GetOutcome.raise "Connection refused" ∧
    ((∃ m, (get_github_user_info oracleDown "google").result =
        PyResult.ret (Json.obj [("error", Json.str ("An unexpected error occurred: " ++ m))])) ∧
     resultHasKey (get_github_user_info oracleDown "google") "status_code" = false) :=
  ⟨rfl,
    other_failure_message_only oracleDown "google" "Connection refused" ⟨200, some googleBody⟩
      (Or.inl rfl)⟩

/-!
### C3, C4, C7 — the dispatch loop
-/

/-- A function-call request naming the known tool with the schema's
argument mapping. -/
def demoCall : FunctionCall := ⟨"get_github_user_info", [("username", Json.str "google")]⟩

/-- A function-call request naming a tool the dispatch loop does not know. -/
def demoBadCall : FunctionCall := ⟨"delete_repository", [("repo", Json.str "x")]⟩

/-- A concrete tool handler for exercising the dispatch loop. -/
def demoTool : List (String × Json) → Json := fun _ => googleBody

/-- A concrete second-model-session oracle for exercising the dispatch loop. -/
def demoModel2 : SecondCallPayload → String :=
  fun _ => "google is Google, with 2770 public repos and 57000 followers."

/-- C3: on a model response carrying a function-call request that names the
known tool, the dispatch loop invokes exactly that tool with exactly the
supplied argument mapping, and issues exactly one second model-session
call carrying the original prompt, the request, and the tool result, whose
text is the terminal answer. -/
theorem dispatch_known_tool (tool : List (String × Json) → Json)
    (model2 : SecondCallPayload → String) (prompt : String) (fc : FunctionCall)
    (h : fc.name = knownToolName) :
    dispatch tool model2 prompt (.functionCall fc) =
      { toolInvocations := [(fc.name, fc.args)],
        secondCalls := [⟨prompt, fc, tool fc.args⟩],
        terminal := .answer (model2 ⟨prompt, fc, tool fc.args⟩) } := by
  simp only [dispatch]
  rw [if_pos h]

/-- C3 (witness): the dispatch theorem applied to a concrete request for
the known tool. -/
theorem dispatch_known_tool_witness :
    demoCall.name = knownToolName ∧
    dispatch demoTool demoModel2 "Summarize the GitHub user google." (.functionCall demoCall) =
      { toolInvocations := [(demoCall.name, demoCall.args)],
        secondCalls := [⟨"Summarize the GitHub user google.", demoCall, demoTool demoCall.args⟩],
        terminal :=
          .answer (demoModel2
            ⟨"Summarize the GitHub user google.", demoCall, demoTool demoCall.args⟩) } :=
  ⟨rfl, dispatch_known_tool demoTool demoModel2 "Summarize the GitHub user google." demoCall rfl⟩

/-- C4: on a model response carrying a function-call request naming a tool
the dispatch loop does not recognize, the loop performs no tool invocation
and surfaces an unhandled-capability error naming that tool — it does not
finish silently. -/
theorem dispatch_unknown_tool_surfaced (tool : List (String × Json) → Json)
    (model2 : SecondCallPayload → String) (prompt : String) (fc : FunctionCall)
    (h : fc.name ≠ knownToolName) :
    dispatch tool model2 prompt (.functionCall fc) =
      { toolInvocations := [], secondCalls := [],
        terminal := .unhandledTool fc.name } := by
  simp only [dispatch]
  rw [if_neg h]

/-- C4 (witness): the unrecognized-tool theorem applied to a concrete
request for an unknown tool. -/
theorem dispatch_unknown_tool_surfaced_witness :
    demoBadCall.name ≠ knownToolName ∧
    dispatch demoTool demoModel2 "Delete my repo." (.functionCall demoBadCall) =
      { toolInvocations := [], secondCalls := [],
        terminal := .unhandledTool demoBadCall.name } :=
  ⟨by decide, dispatch_unknown_tool_surfaced demoTool demoModel2 "Delete my repo." demoBadCall
    (by decide)⟩

/-- C7: on a model response containing no function-call request, the
dispatch loop performs zero tool invocations, issues no second model call,
and yields the model's text unchanged as the terminal answer. -/
theorem dispatch_no_function_call (tool : List (String × Json) → Json)
    (model2 : SecondCallPayload → String) (prompt : String) (t : String) :
    dispatch tool model2 prompt (.text t) =
      { toolInvocations := [], secondCalls := [], terminal := .answer t } :=
  rfl

/-!
### C5 — the credential loader names the wrong secret

The README instructs the user to create a secret named `GEMINI_API_KEY`,
but the loader cell's missing-secret messages name `GOOGLE_API_KEY`: the
user-facing message does not name the secret identifier the user was
instructed to configure.  The theorem evaluates the loader at the failing
input (a store in which the instructed secret is absent).
-/

/-- C5 (code bug): with the instructed secret `GEMINI_API_KEY` absent from
the store, the loader leaves `api_key` unbound and prints messages that
name `GOOGLE_API_KEY` and never mention the README's `GEMINI_API_KEY`. -/
theorem credential_message_names_wrong_secret :
    (credential_loader emptyStore instructedSecretName).api_key = none ∧
    ((credential_loader emptyStore instructedSecretName).printed.any
      (fun m => strContains m "GOOGLE_API_KEY")) = true ∧
    ((credential_loader emptyStore instructedSecretName).printed.all
      (fun m => !(strContains m instructedSecretName))) = true := by
  refine ⟨rfl, by decide, by decide⟩

/-!
### C8 — idempotence / statelessness of the tool function
-/

/-- C8: two calls with the same username against the same unchanged HTTP
oracle return structurally identical results, and each call performs its
own single fresh GET to the templated URL (no cache, no carried-over
state). -/
theorem repeated_calls_identical (oracle : String → GetOutcome) (username : String) :
    (callTwice oracle username).1.result = (callTwice oracle username).2.result ∧
    (callTwice oracle username).1.requestedUrls = [api_url username] ∧
    (callTwice oracle username).2.requestedUrls = [api_url username] :=
  ⟨rfl, get_github_user_info_urls oracle username, get_github_user_info_urls oracle username⟩

/-!
### C9 — `response` is bound in the HTTP-error branch
-/

/-- C9: whenever the `try` block exits with an `HTTPError`, the local
variable `response` is bound (the exception can only come from
`raise_for_status`, after `requests.get` returned), so the error branch
reads `response.status_code` successfully and the call returns normally
rather than failing with an unbound-variable error. -/
theorem http_error_branch_response_bound (oracle : String → GetOutcome) (username : String)
    (msg : String)
    (h : (get_try_block oracle (api_url username)).result = Except.error (Exn.httpError msg)) :
    (get_try_block oracle (api_url username)).responseVar.isSome = true ∧
    (get_github_user_info oracle username).result.isRet = true := by
  obtain ⟨r, _, hv⟩ := httpError_has_response oracle (api_url username) msg h
  constructor
  · rw [hv]
    rfl
  · unfold get_github_user_info handle_exceptions
    rw [h, hv]
    rfl

/-- C9 (witness): the theorem applied to a concrete `404` oracle, where
the `try` block exits with an `HTTPError`. -/
theorem http_error_branch_response_bound_witness :
    (get_try_block oracle404 (api_url "no-such-user-xyz")).result =
      Except.error (Exn.httpError (httpErrorText 404 (api_url "no-such-user-xyz"))) ∧
    ((get_try_block oracle404 (api_url "no-such-user-xyz")).responseVar.isSome = true ∧
     (get_github_user_info oracle404 "no-such-user-xyz").result.isRet = true) :=
  ⟨rfl, http_error_branch_response_bound oracle404 "no-such-user-xyz"
    (httpErrorText 404 (api_url "no-such-user-xyz")) rfl⟩

/-!
### C10 — no username validation; empty username hits the bare endpoint
-/

/-- C10: the function issues its single HTTP GET for every input string —
no local validation rejects any username — and for the empty string the
request goes to the bare URL `https://api.github.com/users/`. -/
theorem no_username_validation (oracle : String → GetOutcome) (username : String) :
    (get_github_user_info oracle username).requestedUrls = [api_url username] ∧
    (get_github_user_info oracle "").requestedUrls = ["https://api.github.com/users/"] := by
  refine ⟨get_github_user_info_urls oracle username, ?_⟩
  rw [get_github_user_info_urls oracle ""]
  rfl

end Workshop
